import Mathlib

/-!
Verification development for the cout.ai backend (FastAPI + Supabase + OpenAI).

Shallow embedding of the conversation-session orchestration logic:
`app/services/supabase_service.py`, `app/services/openai_service.py` and
`app/routers/chat.py`. The external datastore is modelled as an explicit
state (`DB`), the completion provider and the token validator as oracle
functions, and the fallibility of each datastore insert as an explicit
boolean (`insertOk = false` covers both "the insert raises" and "the insert
returns no data", which the Python code treats identically). Timestamps are
naturals; every `datetime.utcnow()` taken during one request is modelled by
a single `now` parameter. Python strings are modelled as `String` with
code-point operations done on `List Char` (Python slicing and `len` count
code points).
-/

/-- Row of the `chat_sessions` table (spec section 3, "Session"). -/
structure Session where
  id : String
  user_id : String
  title : String
  created_at : Nat
  updated_at : Nat
  message_count : Nat
deriving DecidableEq, Repr

/-- Row of the `chat_messages` table (spec section 3, "Message"): one record
holds both the user text and the generated reply; `session_id` is nullable. -/
structure Message where
  id : String
  user_id : String
  session_id : Option String
  user_message : String
  ai_response : String
  created_at : Nat
deriving DecidableEq, Repr

/-- The datastore: the two tables, each as a list of rows in insertion order. -/
structure DB where
  sessions : List Session
  messages : List Message
deriving DecidableEq, Repr

/-- Python truthiness of an optional string (`if session_id:`): `None` and the
empty string are falsy. -/
def optTruthy : Option String → Bool
  | none => false
  | some s => !(s == "")

/-- Python `s[:n]` on a string (code-point slice). -/
def strTake (s : String) (n : Nat) : String :=
  String.mk (s.toList.take n)

/-- Whitespace stripped by Python `str.strip()`: the full `str.isspace()`
character set — ASCII blanks and separators 09-0D, 1C-1F and 20, NEL 85,
NBSP A0, and the Unicode space separators U+1680, U+2000-U+200A, U+2028,
U+2029, U+202F, U+205F and U+3000. -/
def isPySpace (c : Char) : Bool :=
  c == ' ' || c == '\t' || c == '\n' || c == '\x0b' || c == '\x0c' || c == '\r'
    || c == '\x1c' || c == '\x1d' || c == '\x1e' || c == '\x1f'
    || c == '\x85' || c == '\xa0' || c == '\u1680'
    || (0x2000 ≤ c.val && c.val ≤ 0x200a)
    || c == '\u2028' || c == '\u2029' || c == '\u202F' || c == '\u205F'
    || c == '\u3000'

/-- Python `s.strip()`: drop leading and trailing whitespace. -/
def pyStrip (s : String) : String :=
  String.mk (((s.toList.dropWhile isPySpace).reverse.dropWhile isPySpace).reverse)

/-- Session title computed inside `SupabaseService.log_chat_message`
(supabase_service.py line 165):
`title = user_message[:50] + "..." if len(user_message) > 50 else user_message`. -/
def logTitle (user_message : String) : String :=
  if 50 < user_message.toList.length then strTake user_message 50 ++ "..."
  else user_message

/-- Session title computed by the auto-rename branch of `send_chat_message`
(chat.py lines 124-126):
`new_title = request.message[:50].strip()` then
`if len(request.message) > 50: new_title += "..."`. -/
def autoTitle (message : String) : String :=
  if 50 < message.toList.length then pyStrip (strTake message 50) ++ "..."
  else pyStrip (strTake message 50)

/-- `SupabaseService.create_chat_session` (supabase_service.py lines 31-70):
builds the row (`message_count = 0`) and inserts it. `insertOk = false` means
the insert raised or returned no data; the Python then raises, modelled as
`none`. `newId` stands for `str(uuid.uuid4())`. -/
def create_chat_session (db : DB) (user_id title : String)
    (insertOk : Bool) (newId : String) (now : Nat) : Option (Session × DB) :=
  let s : Session :=
    { id := newId, user_id := user_id, title := title,
      created_at := now, updated_at := now, message_count := 0 }
  if insertOk then some (s, { db with sessions := db.sessions ++ [s] })
  else none

/-- `SupabaseService.get_session_by_id` (supabase_service.py lines 108-139):
`.eq("id", session_id).eq("user_id", user_id).single()`. `.single()` raises
unless exactly one row matches, and every exception path returns `None`. -/
def get_session_by_id (db : DB) (session_id user_id : String) : Option Session :=
  match db.sessions.filter (fun s => s.id == session_id && s.user_id == user_id) with
  | [s] => some s
  | _ => none

/-- Datastore side effect of inserting a row into `chat_messages`.
The appended row is the insert itself; the `message_count` bump on the owning
session is the datastore trigger installed by the repository migration, which
is not under src. Modelled from the spec: "message count (monotonic counter
incremented by the store on each logged message)" (spec section 3). -/
def insertMessage (db : DB) (m : Message) : DB :=
  { sessions := db.sessions.map (fun s =>
      if m.session_id == some s.id then { s with message_count := s.message_count + 1 }
      else s),
    messages := db.messages ++ [m] }

/-- Session-resolution step of `SupabaseService.log_chat_message`
(supabase_service.py lines 160-171): a falsy `session_id` triggers creation
of a session titled with the truncated message; a creation failure is
swallowed and leaves `session_id = None`. -/
def resolveLogSession (db : DB) (user_id user_message : String)
    (session_id : Option String) (sessionInsertOk : Bool)
    (newSessionId : String) (now : Nat) : Option String × DB :=
  if optTruthy session_id then (session_id, db)
  else
    match create_chat_session db user_id (logTitle user_message) sessionInsertOk newSessionId now with
    | some (s, db1) => (some s.id, db1)
    | none => (none, db)

/-- The `message_data` dictionary built in `log_chat_message`
(supabase_service.py lines 173-184); the `session_id` key is set only when a
session id is at hand, which `Option` models. -/
def messageRow (newMsgId user_id : String) (sid : Option String)
    (user_message ai_response : String) (now : Nat) : Message :=
  { id := newMsgId, user_id := user_id, session_id := sid,
    user_message := user_message, ai_response := ai_response, created_at := now }

/-- `SupabaseService.log_chat_message` (supabase_service.py lines 141-198):
resolve the session, build `message_data`, insert it. `msgInsertOk = false`
means the message insert raised or returned no data, in which case the
exception is swallowed and the locally built `message_data` is returned with
the datastore keeping only the session created earlier (if any). The
function never fails. -/
def log_chat_message (db : DB) (user_id user_message ai_response : String)
    (session_id : Option String) (sessionInsertOk msgInsertOk : Bool)
    (newSessionId newMsgId : String) (now : Nat) : Message × DB :=
  if msgInsertOk then
    (messageRow newMsgId user_id
       (resolveLogSession db user_id user_message session_id sessionInsertOk newSessionId now).1
       user_message ai_response now,
     insertMessage
       (resolveLogSession db user_id user_message session_id sessionInsertOk newSessionId now).2
       (messageRow newMsgId user_id
         (resolveLogSession db user_id user_message session_id sessionInsertOk newSessionId now).1
         user_message ai_response now))
  else
    (messageRow newMsgId user_id
       (resolveLogSession db user_id user_message session_id sessionInsertOk newSessionId now).1
       user_message ai_response now,
     (resolveLogSession db user_id user_message session_id sessionInsertOk newSessionId now).2)

/-- Message role in the completion request. -/
inductive Role where
  | system
  | user
  | assistant
deriving DecidableEq, Repr

/-- One entry of the `messages` array sent to the completion API. -/
structure ChatMsg where
  role : Role
  content : String
deriving DecidableEq, Repr

/-- Construction of the `messages` array in
`OpenAIService.generate_fitness_response` (openai_service.py lines 41-53):
the system instruction, then `conversation_history[-5:]` expanded to
user/assistant pairs, then the new user message. -/
def buildMessages (systemPrompt : String) (conversation_history : List (String × String))
    (user_message : String) : List ChatMsg :=
  ({ role := .system, content := systemPrompt } ::
    (conversation_history.drop (conversation_history.length - 5)).flatMap
      (fun p => [{ role := .user, content := p.1 }, { role := .assistant, content := p.2 }]))
  ++ [{ role := .user, content := user_message }]

/-- `OpenAIService.generate_fitness_response` (openai_service.py lines 29-81).
`provider` is the external completion API: `none` models any raised provider
error (rate limit, auth, API error), `some content` a returned message
content. Empty content raises (`if not ai_response`), which the blanket
`except` turns into a failure; otherwise the content is returned stripped.
`get_chat_response` just delegates here. -/
def generate_fitness_response (provider : List ChatMsg → Option String)
    (systemPrompt user_message : String)
    (conversation_history : List (String × String)) : Option String :=
  match provider (buildMessages systemPrompt conversation_history user_message) with
  | none => none
  | some content => if content == "" then none else some (pyStrip content)

/-- Insertion step of the model of `.order("created_at", desc=True)`. -/
def insertDesc (m : Message) : List Message → List Message
  | [] => [m]
  | x :: xs => if x.created_at ≤ m.created_at then m :: x :: xs else x :: insertDesc m xs

/-- Model of `.order("created_at", desc=True)`: insertion sort, newest first. -/
def orderDesc : List Message → List Message
  | [] => []
  | x :: xs => insertDesc x (orderDesc xs)

/-- Insertion step of the model of `.order("created_at", desc=False)`. -/
def insertAsc (m : Message) : List Message → List Message
  | [] => [m]
  | x :: xs => if m.created_at ≤ x.created_at then m :: x :: xs else x :: insertAsc m xs

/-- Model of `.order("created_at", desc=False)`: insertion sort, oldest first. -/
def orderAsc : List Message → List Message
  | [] => []
  | x :: xs => insertAsc x (orderAsc xs)

/-- Row filter shared by `get_recent_context` and `get_chat_history`:
`.eq("user_id", user_id)` always, plus `.eq("session_id", session_id)` only
when `session_id` is truthy (`if session_id:`). -/
def contextFilter (user_id : String) (session_id : Option String) (m : Message) : Bool :=
  m.user_id == user_id && (if optTruthy session_id then m.session_id == session_id else true)

/-- `SupabaseService.get_recent_context` (supabase_service.py lines 244-282):
filter, order by `created_at` descending, `limit`, then reverse into
chronological order, projecting to `(user_message, ai_response)`. -/
def get_recent_context (db : DB) (user_id : String) (session_id : Option String)
    (limit : Nat) : List (String × String) :=
  (((orderDesc (db.messages.filter (contextFilter user_id session_id))).take limit).reverse).map
    (fun m => (m.user_message, m.ai_response))

/-- `SupabaseService.get_chat_history` (supabase_service.py lines 200-242):
same filter, ordered by `created_at` ascending, limited. -/
def get_chat_history (db : DB) (user_id : String) (session_id : Option String)
    (limit : Nat) : List Message :=
  ((orderAsc (db.messages.filter (contextFilter user_id session_id))).take limit)

/-- `SupabaseService.update_session_title` (supabase_service.py lines 364-402):
ownership check via `get_session_by_id`, then an update of `title` and
`updated_at` scoped by id and user id. -/
def update_session_title (db : DB) (session_id user_id new_title : String)
    (now : Nat) : Bool × DB :=
  match get_session_by_id db session_id user_id with
  | none => (false, db)
  | some _ =>
    (true, { db with sessions := db.sessions.map (fun s =>
        if s.id == session_id && s.user_id == user_id then
          { s with title := new_title, updated_at := now }
        else s) })

/-- `SupabaseService.delete_session` (supabase_service.py lines 284-322):
ownership check, then delete the session row. The removal of the session's
messages is the datastore cascade. Modelled from the spec: "cascading removal
of that session's messages is a datastore-level guarantee" (spec section 4.2). -/
def delete_session (db : DB) (session_id user_id : String) : Bool × DB :=
  match get_session_by_id db session_id user_id with
  | none => (false, db)
  | some _ =>
    (true, { sessions := db.sessions.filter (fun s => !(s.id == session_id && s.user_id == user_id)),
             messages := db.messages.filter (fun m => !(m.session_id == some session_id)) })

/-- Minimal user identity returned by `SupabaseService.validate_user_token`
(supabase_service.py lines 404-429): `{id, email, created_at}`. -/
structure UserInfo where
  id : String
  email : String
  created_at : String
deriving DecidableEq, Repr

/-- Python `s.replace(pat, repl)` for a nonempty pattern, on code points:
scan left to right, replacing each (non-overlapping) occurrence. -/
def pyReplace (pat repl : List Char) : List Char → List Char
  | [] => []
  | c :: rest =>
    if h : pat.isPrefixOf (c :: rest) ∧ pat ≠ [] then
      repl ++ pyReplace pat repl ((c :: rest).drop pat.length)
    else
      c :: pyReplace pat repl rest
termination_by s => s.length
decreasing_by
  · have hp : 0 < pat.length := List.length_pos.mpr h.2
    simp only [List.length_drop, List.length_cons]
    omega
  · simp only [List.length_cons]
    omega

/-- Contiguous-occurrence test: `containsPat pat s` is true when `pat` occurs
as a contiguous run somewhere in `s` (Python `pat in s`). -/
def containsPat (pat : List Char) : List Char → Bool
  | [] => pat.isEmpty
  | c :: rest => pat.isPrefixOf (c :: rest) || containsPat pat rest

/-- The pattern removed from the Authorization header (chat.py line 38). -/
def bearerPat : List Char := "Bearer ".toList

/-- Token extraction in `get_current_user` (chat.py line 38):
`token = authorization.replace("Bearer ", "")`. -/
def extract_token (authorization : String) : String :=
  String.mk (pyReplace bearerPat [] authorization.toList)

/-- `get_current_user` (chat.py lines 17-56). A missing or empty header is
falsy and yields 401 immediately. Otherwise the token is extracted and
validated by `validate` (the Supabase identity provider, an oracle here).
When validation yields no user the code raises `HTTPException(401, "Invalid
or expired token")` inside the `try`, which the blanket `except Exception`
catches and replaces by `HTTPException(401, "Authentication failed")`; a
validator exception takes the same path, so every rejection surfaces as
401 "Authentication failed". -/
def get_current_user (authorization : Option String)
    (validate : String → Option UserInfo) : Except (Nat × String) UserInfo :=
  match authorization with
  | none => Except.error (401, "Authorization header required")
  | some a =>
    if a == "" then Except.error (401, "Authorization header required")
    else
      match validate (extract_token a) with
      | some u => Except.ok u
      | none => Except.error (401, "Authentication failed")

/-- `SupabaseService.delete_all_user_sessions` (supabase_service.py lines
324-362): count the user's sessions; zero is an early success with count 0,
otherwise delete them all (messages cascade, as in `delete_session`). -/
def delete_all_user_sessions (db : DB) (user_id : String) : Nat × DB :=
  if (db.sessions.filter (fun s => s.user_id == user_id)).length == 0 then (0, db)
  else
    ((db.sessions.filter (fun s => s.user_id == user_id)).length,
     { sessions := db.sessions.filter (fun s => !(s.user_id == user_id)),
       messages := db.messages.filter (fun m =>
         match m.session_id with
         | some sid => !(db.sessions.any (fun s => s.id == sid && s.user_id == user_id))
         | none => true) })


/-- Body of the success response of `POST /chat`
(`ChatResponse` in app/models/chat.py). -/
structure ChatResponse where
  message : String
  timestamp : Nat
  session_id : Option String
  session_title : Option String
deriving DecidableEq, Repr

/-- Outcome of the `POST /chat` handler: a 200 response or an
`HTTPException`, each together with the datastore state afterwards. -/
inductive ChatResult where
  | ok (resp : ChatResponse) (db : DB)
  | error (status : Nat) (detail : String) (db : DB)
deriving DecidableEq, Repr

/-- Resolution of the returned session id (chat.py line 116):
`final_session_id = stored_message.get("session_id", request.session_id)` —
the stored record's key when present, the request value otherwise. -/
def finalSessionId (stored : Message) (req_session_id : Option String) : Option String :=
  match stored.session_id with
  | some s => some s
  | none => req_session_id

/-- Step 5 of `send_chat_message` (chat.py lines 118-135): re-read the
resolved session (for a truthy `final_session_id`); when its title is still
the sentinel "New Chat" and its message count is exactly 1, rename it with
the truncated-and-stripped message and report the new title. Returns the
reported `updated_title` and the datastore afterwards. -/
def autoTitleStep (db1 : DB) (user_id req_message : String)
    (fsid : Option String) (now : Nat) : Option String × DB :=
  match fsid, optTruthy fsid with
  | some f, true =>
    (match get_session_by_id db1 f user_id with
     | some cur =>
       if cur.title == "New Chat" && cur.message_count == 1 then
         (some (autoTitle req_message),
          (update_session_title db1 f user_id (autoTitle req_message) now).2)
       else (none, db1)
     | none => (none, db1))
  | _, _ => (none, db1)

/-- Steps 2-7 of `send_chat_message` (chat.py lines 90-144), after the
session-ownership guard: fetch context, generate (any completion failure is
caught by the blanket `except` and becomes a 500), persist via
`log_chat_message` (a pure function, so its single Python evaluation is
written out at each use site), resolve `final_session_id`, run the
auto-title branch, and build the response. `systemPrompt` is
`settings.SYSTEM_PROMPT` (config.py lines 29-41), threaded as a parameter
since its text does not affect control flow. -/
def chatTurnCore (db : DB) (user_id req_message : String) (req_session_id : Option String)
    (provider : List ChatMsg → Option String) (systemPrompt : String)
    (sessionInsertOk msgInsertOk : Bool) (newSessionId newMsgId : String)
    (now : Nat) : ChatResult :=
  match generate_fitness_response provider systemPrompt req_message
      (get_recent_context db user_id req_session_id 5) with
  | none => ChatResult.error 500 "Failed to process chat message" db
  | some ai_response =>
    ChatResult.ok
      { message := ai_response,
        timestamp := (log_chat_message db user_id req_message ai_response req_session_id
          sessionInsertOk msgInsertOk newSessionId newMsgId now).1.created_at,
        session_id := finalSessionId
          (log_chat_message db user_id req_message ai_response req_session_id
            sessionInsertOk msgInsertOk newSessionId newMsgId now).1 req_session_id,
        session_title := (autoTitleStep
          (log_chat_message db user_id req_message ai_response req_session_id
            sessionInsertOk msgInsertOk newSessionId newMsgId now).2
          user_id req_message
          (finalSessionId
            (log_chat_message db user_id req_message ai_response req_session_id
              sessionInsertOk msgInsertOk newSessionId newMsgId now).1 req_session_id)
          now).1 }
      (autoTitleStep
        (log_chat_message db user_id req_message ai_response req_session_id
          sessionInsertOk msgInsertOk newSessionId newMsgId now).2
        user_id req_message
        (finalSessionId
          (log_chat_message db user_id req_message ai_response req_session_id
            sessionInsertOk msgInsertOk newSessionId newMsgId now).1 req_session_id)
        now).2

/-- `send_chat_message`, the `POST /chat` handler (chat.py lines 58-154):
when a truthy `session_id` is supplied it is resolved scoped to the caller
and a miss is a 404; then the turn proceeds as `chatTurnCore`. -/
def send_chat_message (db : DB) (user_id req_message : String)
    (req_session_id : Option String) (provider : List ChatMsg → Option String)
    (systemPrompt : String) (sessionInsertOk msgInsertOk : Bool)
    (newSessionId newMsgId : String) (now : Nat) : ChatResult :=
  match req_session_id, optTruthy req_session_id with
  | some sid, true =>
    (match get_session_by_id db sid user_id with
     | none => ChatResult.error 404 "Session not found or does not belong to current user" db
     | some _ =>
       chatTurnCore db user_id req_message req_session_id provider systemPrompt
         sessionInsertOk msgInsertOk newSessionId newMsgId now)
  | _, _ =>
    chatTurnCore db user_id req_message req_session_id provider systemPrompt
      sessionInsertOk msgInsertOk newSessionId newMsgId now

/-- `get_session_history`, the `GET /chat/sessions/{id}/history` handler
(chat.py lines 243-300): ownership check then the session's history. -/
def get_session_history (db : DB) (user_id session_id : String)
    (limit : Nat) : Except (Nat × String) (List Message) :=
  match get_session_by_id db session_id user_id with
  | none => Except.error (404, "Session not found or does not belong to current user")
  | some _ => Except.ok (get_chat_history db user_id (some session_id) limit)

/-- `get_chat_history`, the `GET /chat/history` handler (chat.py lines
374-436): the ownership check runs only for a truthy `session_id`. -/
def get_chat_history_route (db : DB) (user_id : String)
    (session_id : Option String) (limit : Nat) : Except (Nat × String) (List Message) :=
  match session_id, optTruthy session_id with
  | some sid, true =>
    (match get_session_by_id db sid user_id with
     | none => Except.error (404, "Session not found or does not belong to current user")
     | some _ => Except.ok (get_chat_history db user_id session_id limit))
  | _, _ => Except.ok (get_chat_history db user_id session_id limit)

/-- `delete_chat_session`, the `DELETE /chat/sessions/{id}` handler
(chat.py lines 302-340). -/
def delete_chat_session (db : DB) (user_id session_id : String) :
    Except (Nat × String) (String × DB) :=
  match delete_session db session_id user_id with
  | (false, _) => Except.error (404, "Session not found or does not belong to current user")
  | (true, db1) => Except.ok ("Session deleted successfully", db1)

/-- `delete_all_chat_sessions`, the `DELETE /chat/sessions:deleteAll`
handler (chat.py lines 342-372): always a success body carrying the count. -/
def delete_all_chat_sessions (db : DB) (user_id : String) :
    Except (Nat × String) (String × Nat × DB) :=
  Except.ok
    ("Successfully deleted " ++ toString (delete_all_user_sessions db user_id).1
       ++ " chat sessions",
     (delete_all_user_sessions db user_id).1, (delete_all_user_sessions db user_id).2)

/-- Status code of a chat-handler outcome (200 on the success path). -/
def ChatResult.status : ChatResult → Nat
  | ChatResult.ok _ _ => 200
  | ChatResult.error s _ _ => s

/-- The response body of a chat-handler outcome, when it succeeded. -/
def ChatResult.resp : ChatResult → Option ChatResponse
  | ChatResult.ok r _ => some r
  | ChatResult.error _ _ _ => none

/-- The filtered rows are in strictly increasing `created_at` order. This is
the datastore reality for this schema: `created_at` is set from the clock at
insert time, so rows come back from the table in chronological order and
`order by created_at` is deterministic. -/
def ChronoAsc (l : List Message) : Prop :=
  l.Pairwise (fun a b => a.created_at < b.created_at)

instance (l : List Message) : Decidable (ChronoAsc l) := by
  unfold ChronoAsc
  infer_instance

theorem filter_eq_nil_of {α : Type} (p : α → Bool) (l : List α)
    (h : ∀ x ∈ l, p x = false) : l.filter p = [] := by
  induction l with
  | nil => rfl
  | cons x xs ih =>
    simp only [List.filter_cons, h x (List.mem_cons_self x xs), Bool.false_eq_true,
      if_false]
    exact ih (fun y hy => h y (List.mem_cons_of_mem x hy))

theorem map_id_of {α : Type} (f : α → α) (l : List α)
    (h : ∀ x ∈ l, f x = x) : l.map f = l := by
  induction l with
  | nil => rfl
  | cons x xs ih =>
    simp only [List.map_cons, h x (List.mem_cons_self x xs)]
    rw [ih (fun y hy => h y (List.mem_cons_of_mem x hy))]

theorem get_session_by_id_none (db : DB) (sid uid : String)
    (h : ∀ s ∈ db.sessions, s.id = sid → s.user_id ≠ uid) :
    get_session_by_id db sid uid = none := by
  unfold get_session_by_id
  rw [filter_eq_nil_of _ _ ?hall]
  case hall =>
    intro s hs
    by_cases hid : s.id = sid
    · have : (s.user_id == uid) = false := beq_eq_false_iff_ne.mpr (h s hs hid)
      simp [this]
    · have : (s.id == sid) = false := beq_eq_false_iff_ne.mpr hid
      simp [this]

theorem get_session_by_id_append (sessions : List Session) (msgs : List Message)
    (s : Session) (h : ∀ t ∈ sessions, t.id ≠ s.id) :
    get_session_by_id ⟨sessions ++ [s], msgs⟩ s.id s.user_id = some s := by
  unfold get_session_by_id
  rw [List.filter_append, filter_eq_nil_of _ _ ?hall]
  case hall =>
    intro t ht
    have : (t.id == s.id) = false := beq_eq_false_iff_ne.mpr (h t ht)
    simp [this]
  simp

theorem insertDesc_eq_append (m : Message) (l : List Message)
    (h : ∀ y ∈ l, m.created_at < y.created_at) :
    insertDesc m l = l ++ [m] := by
  induction l with
  | nil => rfl
  | cons x xs ih =>
    have hx := h x (List.mem_cons_self x xs)
    simp only [insertDesc]
    rw [if_neg (by omega)]
    rw [ih (fun y hy => h y (List.mem_cons_of_mem x hy))]
    rfl

theorem orderDesc_eq_reverse (l : List Message) (h : ChronoAsc l) :
    orderDesc l = l.reverse := by
  induction l with
  | nil => rfl
  | cons x xs ih =>
    rcases List.pairwise_cons.mp h with ⟨hx, hxs⟩
    simp only [orderDesc]
    rw [ih hxs, insertDesc_eq_append x xs.reverse
      (fun y hy => hx y (List.mem_reverse.mp hy))]
    simp

theorem get_recent_context_eq (db : DB) (uid : String) (sid : Option String)
    (limit : Nat) (h : ChronoAsc (db.messages.filter (contextFilter uid sid))) :
    get_recent_context db uid sid limit =
      ((db.messages.filter (contextFilter uid sid)).drop
        ((db.messages.filter (contextFilter uid sid)).length - limit)).map
          (fun m => (m.user_message, m.ai_response)) := by
  unfold get_recent_context
  rw [orderDesc_eq_reverse _ h,
    ← List.rtake_eq_reverse_take_reverse]
  rfl

theorem resolveLogSession_none_ok (db : DB) (uid msg nsid : String) (now : Nat) :
    resolveLogSession db uid msg none true nsid now
      = (some nsid,
         ⟨db.sessions ++ [⟨nsid, uid, logTitle msg, now, now, 0⟩], db.messages⟩) := rfl

theorem log_chat_message_fst (db : DB) (uid m a : String) (req : Option String)
    (sOk mOk : Bool) (nsid nmid : String) (now : Nat) :
    (log_chat_message db uid m a req sOk mOk nsid nmid now).1
      = messageRow nmid uid (resolveLogSession db uid m req sOk nsid now).1 m a now := by
  unfold log_chat_message
  split <;> rfl

theorem log_new_session (db : DB) (uid msg ai nsid nmid : String) (now : Nat)
    (hfresh : ∀ s ∈ db.sessions, s.id ≠ nsid) :
    log_chat_message db uid msg ai none true true nsid nmid now
      = (messageRow nmid uid (some nsid) msg ai now,
         ⟨db.sessions ++ [⟨nsid, uid, logTitle msg, now, now, 1⟩],
          db.messages ++ [messageRow nmid uid (some nsid) msg ai now]⟩) := by
  unfold log_chat_message
  rw [if_pos rfl, resolveLogSession_none_ok]
  unfold insertMessage
  simp only [List.map_append]
  rw [map_id_of _ db.sessions ?hid]
  case hid =>
    intro s hs
    have hne : ((messageRow nmid uid (some nsid) msg ai now).session_id == some s.id) = false := by
      apply beq_eq_false_iff_ne.mpr
      simp only [messageRow, ne_eq, Option.some.injEq]
      exact fun hteq => (hfresh s hs) hteq.symm
    rw [hne]
    simp
  simp [messageRow]

theorem chatTurnCore_ok (db : DB) (uid msg : String) (req : Option String)
    (provider : List ChatMsg → Option String) (sp : String) (sOk mOk : Bool)
    (nsid nmid : String) (now : Nat) (c : String)
    (hp : provider (buildMessages sp (get_recent_context db uid req 5) msg) = some c)
    (hc : c ≠ "") :
    chatTurnCore db uid msg req provider sp sOk mOk nsid nmid now
      = ChatResult.ok
          { message := pyStrip c, timestamp := now,
            session_id := finalSessionId
              (log_chat_message db uid msg (pyStrip c) req sOk mOk nsid nmid now).1 req,
            session_title := (autoTitleStep
              (log_chat_message db uid msg (pyStrip c) req sOk mOk nsid nmid now).2
              uid msg
              (finalSessionId
                (log_chat_message db uid msg (pyStrip c) req sOk mOk nsid nmid now).1 req)
              now).1 }
          (autoTitleStep
            (log_chat_message db uid msg (pyStrip c) req sOk mOk nsid nmid now).2
            uid msg
            (finalSessionId
              (log_chat_message db uid msg (pyStrip c) req sOk mOk nsid nmid now).1 req)
            now).2 := by
  have hcb : (c == "") = false := beq_eq_false_iff_ne.mpr hc
  unfold chatTurnCore generate_fitness_response
  rw [hp]
  simp only [hcb, Bool.false_eq_true, if_false]
  rw [log_chat_message_fst]
  rfl

theorem send_chat_message_no_sid (db : DB) (uid msg : String)
    (provider : List ChatMsg → Option String) (sp : String) (sOk mOk : Bool)
    (nsid nmid : String) (now : Nat) :
    send_chat_message db uid msg none provider sp sOk mOk nsid nmid now
      = chatTurnCore db uid msg none provider sp sOk mOk nsid nmid now := rfl

theorem send_chat_message_sid_found (db : DB) (uid msg sid : String)
    (provider : List ChatMsg → Option String) (sp : String) (sOk mOk : Bool)
    (nsid nmid : String) (now : Nat) (s : Session) (hs : sid ≠ "")
    (hfound : get_session_by_id db sid uid = some s) :
    send_chat_message db uid msg (some sid) provider sp sOk mOk nsid nmid now
      = chatTurnCore db uid msg (some sid) provider sp sOk mOk nsid nmid now := by
  have ht : optTruthy (some sid) = true := by simp [optTruthy, hs]
  unfold send_chat_message
  simp only [ht, hfound]

theorem send_chat_message_sid_missing (db : DB) (uid msg sid : String)
    (provider : List ChatMsg → Option String) (sp : String) (sOk mOk : Bool)
    (nsid nmid : String) (now : Nat) (hs : sid ≠ "")
    (hnone : get_session_by_id db sid uid = none) :
    send_chat_message db uid msg (some sid) provider sp sOk mOk nsid nmid now
      = ChatResult.error 404 "Session not found or does not belong to current user" db := by
  have ht : optTruthy (some sid) = true := by simp [optTruthy, hs]
  unfold send_chat_message
  simp only [ht, hnone]

theorem logTitle_eq_newchat (m : String) (h : logTitle m = "New Chat") :
    m = "New Chat" := by
  unfold logTitle at h
  by_cases hl : 50 < m.toList.length
  · rw [if_pos hl] at h
    exfalso
    have hlen := congrArg String.length h
    rw [String.length_append] at hlen
    have h50 : (strTake m 50).length = 50 := by
      show (m.toList.take 50).length = 50
      rw [List.length_take]
      omega
    rw [h50] at hlen
    have e1 : ("..." : String).length = 3 := rfl
    have e2 : ("New Chat" : String).length = 8 := rfl
    rw [e1, e2] at hlen
    omega
  · rwa [if_neg hl] at h

theorem autoTitle_newchat : autoTitle "New Chat" = "New Chat" := by decide

theorem update_session_title_append (sessions : List Session) (msgs : List Message)
    (s : Session) (t : String) (now : Nat)
    (hfresh : ∀ u ∈ sessions, u.id ≠ s.id) :
    update_session_title ⟨sessions ++ [s], msgs⟩ s.id s.user_id t now
      = (true, ⟨sessions ++ [{ s with title := t, updated_at := now }], msgs⟩) := by
  unfold update_session_title
  rw [get_session_by_id_append sessions msgs s hfresh]
  simp only [List.map_append]
  rw [map_id_of _ sessions ?hid]
  case hid =>
    intro u hu
    have : (u.id == s.id) = false := beq_eq_false_iff_ne.mpr (hfresh u hu)
    rw [this]
    simp
  simp

theorem autoTitleStep_new (sessions : List Session) (msgs : List Message)
    (uid msg nsid : String) (now : Nat)
    (hfresh : ∀ s ∈ sessions, s.id ≠ nsid) (hns : nsid ≠ "") :
    autoTitleStep ⟨sessions ++ [⟨nsid, uid, logTitle msg, now, now, 1⟩], msgs⟩
        uid msg (some nsid) now
      = if logTitle msg == "New Chat" then
          (some (autoTitle msg),
           ⟨sessions ++ [⟨nsid, uid, autoTitle msg, now, now, 1⟩], msgs⟩)
        else
          (none, ⟨sessions ++ [⟨nsid, uid, logTitle msg, now, now, 1⟩], msgs⟩) := by
  have ht : optTruthy (some nsid) = true := by simp [optTruthy, hns]
  have hget : get_session_by_id ⟨sessions ++ [⟨nsid, uid, logTitle msg, now, now, 1⟩], msgs⟩
      nsid uid = some ⟨nsid, uid, logTitle msg, now, now, 1⟩ :=
    get_session_by_id_append sessions msgs ⟨nsid, uid, logTitle msg, now, now, 1⟩ hfresh
  unfold autoTitleStep
  simp only [ht, hget]
  by_cases hT : (logTitle msg == "New Chat") = true
  · rw [if_pos hT, if_pos (by simp [hT])]
    have hupd := update_session_title_append sessions msgs
      ⟨nsid, uid, logTitle msg, now, now, 1⟩ (autoTitle msg) now hfresh
    rw [hupd]
  · have hT2 : (logTitle msg == "New Chat") = false := by
      cases hcc : (logTitle msg == "New Chat") with
      | true => exact absurd hcc hT
      | false => rfl
    rw [if_neg (by simp [hT2]), if_neg (by simp [hT2])]

theorem send_ok_new_session (db : DB) (uid msg : String)
    (provider : List ChatMsg → Option String) (sp c nsid nmid : String) (now : Nat)
    (hfresh : ∀ s ∈ db.sessions, s.id ≠ nsid) (hns : nsid ≠ "")
    (hp : provider (buildMessages sp (get_recent_context db uid none 5) msg) = some c)
    (hc : c ≠ "") :
    send_chat_message db uid msg none provider sp true true nsid nmid now
      = ChatResult.ok
          { message := pyStrip c, timestamp := now, session_id := some nsid,
            session_title := if logTitle msg == "New Chat" then some (autoTitle msg) else none }
          ⟨db.sessions ++ [⟨nsid, uid, logTitle msg, now, now, 1⟩],
           db.messages ++ [messageRow nmid uid (some nsid) msg (pyStrip c) now]⟩ := by
  rw [send_chat_message_no_sid,
    chatTurnCore_ok db uid msg none provider sp true true nsid nmid now c hp hc,
    log_new_session db uid msg (pyStrip c) nsid nmid now hfresh]
  dsimp only
  have hfs : finalSessionId (messageRow nmid uid (some nsid) msg (pyStrip c) now) none
      = some nsid := rfl
  rw [hfs]
  rw [autoTitleStep_new db.sessions
    (db.messages ++ [messageRow nmid uid (some nsid) msg (pyStrip c) now])
    uid msg nsid now hfresh hns]
  by_cases hT : (logTitle msg == "New Chat") = true
  · rw [if_pos hT, if_pos hT]
    have hmsg : msg = "New Chat" := logTitle_eq_newchat msg (by exact beq_iff_eq.mp hT)
    subst hmsg
    rw [autoTitle_newchat]
    have hlt : logTitle "New Chat" = "New Chat" := by decide
    rw [hlt]
  · have hT2 : (logTitle msg == "New Chat") = false := by
      cases hcc : (logTitle msg == "New Chat") with
      | true => exact absurd hcc hT
      | false => rfl
    rw [if_neg (by simp [hT2]), if_neg (by simp [hT2])]

theorem pyReplace_nil (pat repl : List Char) : pyReplace pat repl [] = [] := by
  simp [pyReplace]

theorem pyReplace_occurrence (p : Char) (ps repl a b : List Char) (ha : p ∉ a) :
    pyReplace (p :: ps) repl (a ++ (p :: ps) ++ b)
      = a ++ repl ++ pyReplace (p :: ps) repl b := by
  induction a with
  | nil =>
    rw [List.nil_append, List.nil_append]
    rw [List.cons_append]
    rw [pyReplace]
    rw [dif_pos ?hcond]
    case hcond =>
      constructor
      · rw [← List.cons_append]
        exact List.isPrefixOf_iff_prefix.mpr (List.prefix_append (p :: ps) b)
      · simp
    rw [← List.cons_append, List.drop_left]
  | cons x a2 ih =>
    have hpx : (p == x) = false := by
      apply beq_eq_false_iff_ne.mpr
      intro hpeq
      exact ha (hpeq ▸ List.mem_cons_self x a2)
    rw [List.cons_append, List.cons_append]
    rw [pyReplace]
    rw [dif_neg ?hcond]
    case hcond =>
      intro hcontra
      have hpre := hcontra.1
      rw [List.isPrefixOf] at hpre
      rw [hpx] at hpre
      simp at hpre
    rw [ih (fun hmem => ha (List.mem_cons_of_mem x hmem))]
    simp

theorem pyReplace_no_occurrence (pat repl s : List Char)
    (h : containsPat pat s = false) : pyReplace pat repl s = s := by
  induction s with
  | nil => simp [pyReplace]
  | cons c rest ih =>
    have hparts : pat.isPrefixOf (c :: rest) = false ∧ containsPat pat rest = false := by
      rw [containsPat, Bool.or_eq_false_iff] at h
      exact h
    rw [pyReplace]
    rw [dif_neg ?hcond]
    case hcond =>
      intro hcontra
      rw [hparts.1] at hcontra
      simp at hcontra
    rw [ih hparts.2]

theorem send_eq_core (db : DB) (uid msg : String) (req : Option String)
    (provider : List ChatMsg → Option String) (sp : String) (sOk mOk : Bool)
    (nsid nmid : String) (now : Nat)
    (hsess : ∀ sid, req = some sid → sid ≠ "" → ∃ s, get_session_by_id db sid uid = some s) :
    send_chat_message db uid msg req provider sp sOk mOk nsid nmid now
      = chatTurnCore db uid msg req provider sp sOk mOk nsid nmid now := by
  cases req with
  | none => rfl
  | some sid =>
    by_cases hsid : sid = ""
    · subst hsid
      have ht : optTruthy (some "") = false := by decide
      unfold send_chat_message
      simp only [ht]
    · obtain ⟨s, hs⟩ := hsess sid rfl hsid
      exact send_chat_message_sid_found db uid msg sid provider sp sOk mOk nsid nmid now s hsid hs

theorem autoTitleStep_no_rename (db1 : DB) (uid msg : String) (fsid : Option String)
    (now : Nat)
    (hcond : ∀ f cur, fsid = some f → get_session_by_id db1 f uid = some cur →
      ¬(cur.title = "New Chat" ∧ cur.message_count = 1)) :
    autoTitleStep db1 uid msg fsid now = (none, db1) := by
  unfold autoTitleStep
  cases fsid with
  | none => rfl
  | some f =>
    cases ht : optTruthy (some f) with
    | false => simp only [ht]
    | true =>
      simp only [ht]
      cases hget : get_session_by_id db1 f uid with
      | none => simp only [hget]
      | some cur =>
        simp only [hget]
        have hnc := hcond f cur rfl hget
        have hfalse : (cur.title == "New Chat" && cur.message_count == 1) = false := by
          by_cases h1 : cur.title = "New Chat"
          · have h2 : cur.message_count ≠ 1 := fun h2 => hnc ⟨h1, h2⟩
            have : (cur.message_count == 1) = false := beq_eq_false_iff_ne.mpr h2
            simp [this]
          · have : (cur.title == "New Chat") = false := beq_eq_false_iff_ne.mpr h1
            simp [this]
        rw [hfalse]
        simp

theorem bump_preserves (m : Message) (s : Session) :
    ((if m.session_id == some s.id then { s with message_count := s.message_count + 1 }
      else s) : Session).id = s.id
    ∧ ((if m.session_id == some s.id then { s with message_count := s.message_count + 1 }
      else s) : Session).title = s.title := by
  split <;> exact ⟨rfl, rfl⟩

theorem insertMessage_preserves_titles (db : DB) (m : Message) :
    ∀ s ∈ db.sessions, ∃ s2 ∈ (insertMessage db m).sessions,
      s2.id = s.id ∧ s2.title = s.title := by
  intro s hs
  exact ⟨_, List.mem_map_of_mem _ hs, (bump_preserves m s).1, (bump_preserves m s).2⟩

theorem resolveLogSession_preserves (db : DB) (uid msg : String) (req : Option String)
    (sOk : Bool) (nsid : String) (now : Nat) :
    ∀ s ∈ db.sessions, s ∈ (resolveLogSession db uid msg req sOk nsid now).2.sessions := by
  intro s hs
  unfold resolveLogSession create_chat_session
  split
  · exact hs
  · cases sOk with
    | true => exact List.mem_append_left _ hs
    | false => exact hs

theorem log_preserves_titles (db : DB) (uid m a : String) (req : Option String)
    (sOk mOk : Bool) (nsid nmid : String) (now : Nat) :
    ∀ s ∈ db.sessions,
      ∃ s2 ∈ (log_chat_message db uid m a req sOk mOk nsid nmid now).2.sessions,
        s2.id = s.id ∧ s2.title = s.title := by
  intro s hs
  unfold log_chat_message
  split
  · exact insertMessage_preserves_titles _ _ s
      (resolveLogSession_preserves db uid m req sOk nsid now s hs)
  · exact ⟨s, resolveLogSession_preserves db uid m req sOk nsid now s hs, rfl, rfl⟩

theorem extract_token_no_occurrence (a : String)
    (h : containsPat bearerPat a.toList = false) : extract_token a = a := by
  unfold extract_token
  rw [pyReplace_no_occurrence bearerPat [] a.toList h]
  rfl

/-- C1: for every chat turn in which the completion call succeeds
(`provider` returns content `c ≠ ""`) but the datastore write of the message
record fails (`msgInsertOk = false`, covering both "the insert raises" and
"the insert returns no data"), the `POST /chat` handler still returns a
success response whose `message` field is the generated reply
(`pyStrip c`, the stripped provider content), for any outcome of the
session-creation write. -/
theorem c1_soft_fail_persistence (db : DB) (uid msg : String) (req : Option String)
    (provider : List ChatMsg → Option String) (sp : String) (sOk : Bool)
    (nsid nmid : String) (now : Nat) (c : String)
    (hsess : ∀ sid, req = some sid → sid ≠ "" → ∃ s, get_session_by_id db sid uid = some s)
    (hp : provider (buildMessages sp (get_recent_context db uid req 5) msg) = some c)
    (hc : c ≠ "") :
    ∃ resp db2,
      send_chat_message db uid msg req provider sp sOk false nsid nmid now
        = ChatResult.ok resp db2 ∧ resp.message = pyStrip c := by
  rw [send_eq_core db uid msg req provider sp sOk false nsid nmid now hsess,
    chatTurnCore_ok db uid msg req provider sp sOk false nsid nmid now c hp hc]
  exact ⟨_, _, rfl, rfl⟩

/-- C1 witness: a concrete failing-write turn (both inserts fail) still
succeeds with the generated reply. -/
theorem c1_witness :
    ∃ resp db2,
      send_chat_message ⟨[], []⟩ "u" "hi" none (fun _ => some "ok") "s" false false "n" "m" 0
        = ChatResult.ok resp db2 ∧ resp.message = pyStrip "ok" :=
  c1_soft_fail_persistence ⟨[], []⟩ "u" "hi" none (fun _ => some "ok") "s" false
    "n" "m" 0 "ok" (fun _ h => nomatch h) rfl (by decide)

/-- C2 counterexample: the claim quantifies over every session identifier
that does not exist, but the empty-string identifier is falsy in Python, so
`POST /chat` with `session_id = ""` skips the ownership check and answers
200 (creating a fresh session) instead of 404 — here against a datastore
holding no session at all. -/
theorem c2_counterexample :
    (DB.mk [] []).sessions = []
    ∧ ChatResult.status (send_chat_message ⟨[], []⟩ "u" "hi" (some "")
        (fun _ => some "ok") "s" true true "n" "m" 0) = 200 := by
  exact ⟨rfl, rfl⟩

/-- C2 (amended): for every authenticated caller and every NON-EMPTY session
identifier that does not exist or is owned by a different user, each
endpoint that takes a session identifier (`POST /chat` with `session_id`,
`GET /chat/sessions/SID/history`, `GET /chat/history?session_id`,
`DELETE /chat/sessions/SID`) responds 404 and returns none of that
session's data; an empty-string `session_id` in the `POST /chat` body or the
`GET /chat/history` query is falsy and is treated as absent instead. -/
theorem c2_unowned_session_404 (db : DB) (uid msg sid : String) (lim : Nat)
    (provider : List ChatMsg → Option String) (sp : String) (sOk mOk : Bool)
    (nsid nmid : String) (now : Nat)
    (hne : sid ≠ "")
    (hmiss : ∀ s ∈ db.sessions, s.id = sid → s.user_id ≠ uid) :
    send_chat_message db uid msg (some sid) provider sp sOk mOk nsid nmid now
        = ChatResult.error 404 "Session not found or does not belong to current user" db
    ∧ get_session_history db uid sid lim
        = Except.error (404, "Session not found or does not belong to current user")
    ∧ get_chat_history_route db uid (some sid) lim
        = Except.error (404, "Session not found or does not belong to current user")
    ∧ delete_chat_session db uid sid
        = Except.error (404, "Session not found or does not belong to current user") := by
  have hnone := get_session_by_id_none db sid uid hmiss
  refine ⟨send_chat_message_sid_missing db uid msg sid provider sp sOk mOk nsid nmid now hne hnone,
    ?_, ?_, ?_⟩
  · unfold get_session_history
    rw [hnone]
  · have ht : optTruthy (some sid) = true := by simp [optTruthy, hne]
    unfold get_chat_history_route
    simp only [ht, hnone]
  · unfold delete_chat_session delete_session
    rw [hnone]

/-- C2 witness: a session owned by another user yields 404 on all four
endpoints. -/
theorem c2_witness :
    send_chat_message ⟨[⟨"s1", "other", "T", 0, 0, 0⟩], []⟩ "u" "hi" (some "s1")
        (fun _ => some "ok") "s" true true "n" "m" 0
        = ChatResult.error 404 "Session not found or does not belong to current user"
            ⟨[⟨"s1", "other", "T", 0, 0, 0⟩], []⟩
    ∧ get_session_history ⟨[⟨"s1", "other", "T", 0, 0, 0⟩], []⟩ "u" "s1" 50
        = Except.error (404, "Session not found or does not belong to current user")
    ∧ get_chat_history_route ⟨[⟨"s1", "other", "T", 0, 0, 0⟩], []⟩ "u" (some "s1") 10
        = Except.error (404, "Session not found or does not belong to current user")
    ∧ delete_chat_session ⟨[⟨"s1", "other", "T", 0, 0, 0⟩], []⟩ "u" "s1"
        = Except.error (404, "Session not found or does not belong to current user") :=
  c2_unowned_session_404 ⟨[⟨"s1", "other", "T", 0, 0, 0⟩], []⟩ "u" "hi" "s1" 50
    (fun _ => some "ok") "s" true true "n" "m" 0 (by decide) (by decide)

/-- C3: for every valid message (1..2000 code points), a chat turn submitted
with no `session_id` against a healthy datastore creates a new session whose
message count becomes 1 (creation writes 0, the message-insert trigger bumps
it) and whose stored title is the message truncated to at most 50 characters
with an ellipsis appended exactly when the message exceeds 50 characters. -/
theorem c3_new_session_title_count (db : DB) (uid msg : String)
    (provider : List ChatMsg → Option String) (sp c nsid nmid : String) (now : Nat)
    (hlen : 1 ≤ msg.toList.length ∧ msg.toList.length ≤ 2000)
    (hfresh : ∀ s ∈ db.sessions, s.id ≠ nsid) (hns : nsid ≠ "")
    (hp : provider (buildMessages sp (get_recent_context db uid none 5) msg) = some c)
    (hc : c ≠ "") :
    ∃ resp db2,
      send_chat_message db uid msg none provider sp true true nsid nmid now
        = ChatResult.ok resp db2
      ∧ resp.session_id = some nsid
      ∧ ∃ s, s ∈ db2.sessions ∧ s.id = nsid ∧ s.user_id = uid ∧ s.message_count = 1
          ∧ s.title = (if 50 < msg.toList.length then strTake msg 50 ++ "..." else msg) := by
  rw [send_ok_new_session db uid msg provider sp c nsid nmid now hfresh hns hp hc]
  refine ⟨_, _, rfl, rfl, ⟨nsid, uid, logTitle msg, now, now, 1⟩, ?_, rfl, rfl, rfl, rfl⟩
  simp

/-- C3 witness: a two-character message in an empty datastore; the created
session carries count 1 and the untruncated message as title. -/
theorem c3_witness :
    ∃ resp db2,
      send_chat_message ⟨[], []⟩ "u" "hi" none (fun _ => some "ok") "s" true true "n" "m" 0
        = ChatResult.ok resp db2
      ∧ resp.session_id = some "n"
      ∧ ∃ s, s ∈ db2.sessions ∧ s.id = "n" ∧ s.user_id = "u" ∧ s.message_count = 1
          ∧ s.title = (if 50 < "hi".toList.length then strTake "hi" 50 ++ "..." else "hi") :=
  c3_new_session_title_count ⟨[], []⟩ "u" "hi" (fun _ => some "ok") "s" "ok" "n" "m" 0
    (by decide) (by decide) (by decide) rfl (by decide)

/-- C4 counterexample: `POST /chat` with message "Hello", no prior session and
a healthy datastore answers with a non-empty `session_id` and the generated
reply, but its `session_title` field is `none`, not "Hello": the fresh
session is created already titled "Hello", so the auto-rename branch (the
only writer of `session_title`) does not fire. This refutes the claimed
response field `session_title = "Hello"`. -/
theorem c4_counterexample :
    (ChatResult.resp (send_chat_message ⟨[], []⟩ "u" "Hello" none
        (fun _ => some "Hi there!") "s" true true "n" "m" 7)).map
        (fun r => (r.message, r.session_id, r.session_title))
      = some ("Hi there!", some "n", none)
    ∧ (ChatResult.resp (send_chat_message ⟨[], []⟩ "u" "Hello" none
        (fun _ => some "Hi there!") "s" true true "n" "m" 7)).map
        (fun r => r.session_title) ≠ some (some "Hello") := by
  exact ⟨rfl, by decide⟩

/-- C4 (amended): for `POST /chat` with body message "Hello", valid auth and
no prior session (healthy datastore), the response has a non-empty
`session_id` and a non-empty generated `message`, while the response field
`session_title` is `none` (it is only populated by the auto-rename branch);
the stored session's title — not the response field — equals "Hello". -/
theorem c4_hello_response (db : DB) (uid : String)
    (provider : List ChatMsg → Option String) (sp c nsid nmid : String) (now : Nat)
    (hfresh : ∀ s ∈ db.sessions, s.id ≠ nsid) (hns : nsid ≠ "")
    (hp : provider (buildMessages sp (get_recent_context db uid none 5) "Hello") = some c)
    (hc : c ≠ "") (hstrip : pyStrip c ≠ "") :
    ∃ db2,
      send_chat_message db uid "Hello" none provider sp true true nsid nmid now
        = ChatResult.ok
            { message := pyStrip c, timestamp := now, session_id := some nsid,
              session_title := none } db2
      ∧ (∃ s, s ∈ db2.sessions ∧ s.id = nsid ∧ s.title = "Hello")
      ∧ pyStrip c ≠ "" := by
  rw [send_ok_new_session db uid "Hello" provider sp c nsid nmid now hfresh hns hp hc]
  have hfalse : (logTitle "Hello" == "New Chat") = false := by decide
  rw [hfalse]
  simp only [Bool.false_eq_true, if_false]
  refine ⟨_, rfl, ⟨⟨nsid, uid, logTitle "Hello", now, now, 1⟩, by simp, rfl, ?_⟩, hstrip⟩
  show logTitle "Hello" = "Hello"
  decide

/-- C4 witness: the "Hello" turn at a concrete provider reply. -/
theorem c4_witness :
    ∃ db2,
      send_chat_message ⟨[], []⟩ "u" "Hello" none (fun _ => some "Hi there!") "s"
          true true "n" "m" 7
        = ChatResult.ok
            { message := pyStrip "Hi there!", timestamp := 7, session_id := some "n",
              session_title := none } db2
      ∧ (∃ s, s ∈ db2.sessions ∧ s.id = "n" ∧ s.title = "Hello")
      ∧ pyStrip "Hi there!" ≠ "" :=
  c4_hello_response ⟨[], []⟩ "u" (fun _ => some "Hi there!") "s" "Hi there!" "n" "m" 7
    (by decide) (by decide) rfl (by decide) (by decide)

/-- C5 counterexample: the two truncation computations differ. For the valid
two-character message " a" (leading space), session creation titles the
session " a" (`message[:50]` unstripped) while the auto-rename branch
computes "a" (`message[:50].strip()`), so the claimed equality of the two
rules is false. -/
theorem c5_counterexample :
    logTitle " a" = " a" ∧ autoTitle " a" = "a" ∧ autoTitle " a" ≠ logTitle " a" := by
  exact ⟨by decide, by decide, by decide⟩

/-- C5 (amended): the creation-time title is exactly the first 50 characters
of the message, with an ellipsis appended exactly when the message exceeds
50 characters; the auto-rename branch additionally strips whitespace around
that 50-character prefix before appending the ellipsis, so the two rules
compute the same title exactly for messages whose first 50 characters carry
no leading or trailing whitespace. -/
theorem c5_truncation_rules (m : String)
    (h : pyStrip (strTake m 50) = strTake m 50) :
    autoTitle m = logTitle m
    ∧ logTitle m = (if 50 < m.toList.length then strTake m 50 ++ "..." else m) := by
  constructor
  · unfold autoTitle logTitle
    rw [h]
    by_cases hl : 50 < m.toList.length
    · rw [if_pos hl, if_pos hl]
    · rw [if_neg hl, if_neg hl]
      show String.mk (m.toList.take 50) = m
      rw [List.take_of_length_le (by omega)]
      rfl
  · rfl

/-- C5 witness: on a trim-invariant message the two rules agree. -/
theorem c5_witness :
    autoTitle "hi" = logTitle "hi"
    ∧ logTitle "hi" = (if 50 < "hi".toList.length then strTake "hi" 50 ++ "..." else "hi") :=
  c5_truncation_rules "hi" (by decide)

/-- C6: for a session whose filtered message records are in chronological
order (strictly increasing `created_at`, the datastore reality for rows
timestamped at insert time), the context fetch with limit 5 returns exactly
`min N 5` records — all of them when `N < 5`, the 5 most recent when
`N ≥ 5` — in chronological ascending order: it equals the chronological
row list with all but the last 5 rows dropped (fetched most-recent-first,
then reversed before use). -/
theorem c6_context_window (db : DB) (uid sid : String) (hsid : sid ≠ "")
    (h : ChronoAsc (db.messages.filter (contextFilter uid (some sid)))) :
    get_recent_context db uid (some sid) 5
      = ((db.messages.filter (contextFilter uid (some sid))).drop
          ((db.messages.filter (contextFilter uid (some sid))).length - 5)).map
        (fun m => (m.user_message, m.ai_response))
    ∧ (get_recent_context db uid (some sid) 5).length
      = min (db.messages.filter (contextFilter uid (some sid))).length 5 := by
  have heq := get_recent_context_eq db uid (some sid) 5 h
  refine ⟨heq, ?_⟩
  rw [heq, List.length_map, List.length_drop]
  omega

/-- C6 witness: six records in one session; the fetch returns the last five,
oldest first, and its length is `min 6 5 = 5`. -/
theorem c6_witness :
    get_recent_context
        ⟨[], [⟨"m1", "u", some "s1", "a1", "b1", 1⟩, ⟨"m2", "u", some "s1", "a2", "b2", 2⟩,
              ⟨"m3", "u", some "s1", "a3", "b3", 3⟩, ⟨"m4", "u", some "s1", "a4", "b4", 4⟩,
              ⟨"m5", "u", some "s1", "a5", "b5", 5⟩, ⟨"m6", "u", some "s1", "a6", "b6", 6⟩]⟩
        "u" (some "s1") 5
      = [("a2", "b2"), ("a3", "b3"), ("a4", "b4"), ("a5", "b5"), ("a6", "b6")]
    ∧ (get_recent_context
        ⟨[], [⟨"m1", "u", some "s1", "a1", "b1", 1⟩, ⟨"m2", "u", some "s1", "a2", "b2", 2⟩,
              ⟨"m3", "u", some "s1", "a3", "b3", 3⟩, ⟨"m4", "u", some "s1", "a4", "b4", 4⟩,
              ⟨"m5", "u", some "s1", "a5", "b5", 5⟩, ⟨"m6", "u", some "s1", "a6", "b6", 6⟩]⟩
        "u" (some "s1") 5).length = 5 := by
  have h := c6_context_window
    ⟨[], [⟨"m1", "u", some "s1", "a1", "b1", 1⟩, ⟨"m2", "u", some "s1", "a2", "b2", 2⟩,
          ⟨"m3", "u", some "s1", "a3", "b3", 3⟩, ⟨"m4", "u", some "s1", "a4", "b4", 4⟩,
          ⟨"m5", "u", some "s1", "a5", "b5", 5⟩, ⟨"m6", "u", some "s1", "a6", "b6", 6⟩]⟩
    "u" "s1" (by decide) (by decide)
  exact ⟨h.1.trans (by decide), h.2.trans (by decide)⟩

/-- C7: for every chat turn whose post-persist re-read of the resolved
session finds a title other than "New Chat" or a message count different
from 1, the auto-title branch performs no rename: the handler returns the
post-persist datastore unchanged with `session_title = none`, and every
pre-existing session keeps its id and title through the turn. -/
theorem c7_no_rename_frame (db : DB) (uid msg : String) (req : Option String)
    (provider : List ChatMsg → Option String) (sp : String) (sOk mOk : Bool)
    (nsid nmid : String) (now : Nat) (c : String)
    (hsess : ∀ sid, req = some sid → sid ≠ "" → ∃ s, get_session_by_id db sid uid = some s)
    (hp : provider (buildMessages sp (get_recent_context db uid req 5) msg) = some c)
    (hc : c ≠ "")
    (hcond : ∀ f cur,
      finalSessionId (log_chat_message db uid msg (pyStrip c) req sOk mOk nsid nmid now).1 req
        = some f →
      get_session_by_id (log_chat_message db uid msg (pyStrip c) req sOk mOk nsid nmid now).2
        f uid = some cur →
      ¬(cur.title = "New Chat" ∧ cur.message_count = 1)) :
    send_chat_message db uid msg req provider sp sOk mOk nsid nmid now
      = ChatResult.ok
          { message := pyStrip c, timestamp := now,
            session_id := finalSessionId
              (log_chat_message db uid msg (pyStrip c) req sOk mOk nsid nmid now).1 req,
            session_title := none }
          (log_chat_message db uid msg (pyStrip c) req sOk mOk nsid nmid now).2
    ∧ ∀ s ∈ db.sessions,
        ∃ s2 ∈ (log_chat_message db uid msg (pyStrip c) req sOk mOk nsid nmid now).2.sessions,
          s2.id = s.id ∧ s2.title = s.title := by
  constructor
  · rw [send_eq_core db uid msg req provider sp sOk mOk nsid nmid now hsess,
      chatTurnCore_ok db uid msg req provider sp sOk mOk nsid nmid now c hp hc,
      autoTitleStep_no_rename _ uid msg _ now hcond]
  · exact log_preserves_titles db uid msg (pyStrip c) req sOk mOk nsid nmid now

/-- C7 witness: a turn on an existing session holding three prior messages;
after the persist the count is 4, so no rename happens and the stored title
"T" survives. -/
theorem c7_witness :
    send_chat_message ⟨[⟨"s1", "u", "T", 0, 0, 3⟩], []⟩ "u" "hi" (some "s1")
        (fun _ => some "ok") "s" true true "n" "m" 9
      = ChatResult.ok
          { message := pyStrip "ok", timestamp := 9,
            session_id := finalSessionId
              (log_chat_message ⟨[⟨"s1", "u", "T", 0, 0, 3⟩], []⟩ "u" "hi" (pyStrip "ok")
                (some "s1") true true "n" "m" 9).1 (some "s1"),
            session_title := none }
          (log_chat_message ⟨[⟨"s1", "u", "T", 0, 0, 3⟩], []⟩ "u" "hi" (pyStrip "ok")
            (some "s1") true true "n" "m" 9).2
    ∧ ∀ s ∈ (DB.mk [⟨"s1", "u", "T", 0, 0, 3⟩] []).sessions,
        ∃ s2 ∈ (log_chat_message ⟨[⟨"s1", "u", "T", 0, 0, 3⟩], []⟩ "u" "hi" (pyStrip "ok")
            (some "s1") true true "n" "m" 9).2.sessions,
          s2.id = s.id ∧ s2.title = s.title :=
  c7_no_rename_frame ⟨[⟨"s1", "u", "T", 0, 0, 3⟩], []⟩ "u" "hi" (some "s1")
    (fun _ => some "ok") "s" true true "n" "m" 9 "ok"
    (fun sid hsid hne => ⟨⟨"s1", "u", "T", 0, 0, 3⟩, by cases hsid; rfl⟩)
    rfl (by decide)
    (by
      intro f cur hf hcur
      have hf0 : (some "s1" : Option String) = some f := by
        refine Eq.trans ?_ hf
        rfl
      injection hf0 with hf1
      subst hf1
      have hcur0 : (some (⟨"s1", "u", "T", 0, 0, 4⟩ : Session) : Option Session) = some cur := by
        refine Eq.trans ?_ hcur
        rfl
      injection hcur0 with hcur1
      subst hcur1
      decide)

/-- C8: for every authenticated user owning zero sessions, the
`DELETE /chat/sessions:deleteAll` handler answers success with
`deleted_count = 0` (and an unchanged datastore), not an error. -/
theorem c8_delete_all_empty (db : DB) (uid : String)
    (h : ∀ s ∈ db.sessions, s.user_id ≠ uid) :
    delete_all_chat_sessions db uid
      = Except.ok ("Successfully deleted 0 chat sessions", 0, db) := by
  have h0 : delete_all_user_sessions db uid = (0, db) := by
    unfold delete_all_user_sessions
    rw [filter_eq_nil_of _ _ (fun s hs => beq_eq_false_iff_ne.mpr (h s hs))]
    rfl
  unfold delete_all_chat_sessions
  rw [h0]
  have hstr : "Successfully deleted " ++ toString (0 : Nat) ++ " chat sessions"
      = "Successfully deleted 0 chat sessions" := by decide
  dsimp only
  rw [hstr]

/-- C8 witness: a user with no sessions in a store holding another user's
session. -/
theorem c8_witness :
    delete_all_chat_sessions ⟨[⟨"s1", "other", "T", 0, 0, 0⟩], []⟩ "u"
      = Except.ok ("Successfully deleted 0 chat sessions", 0,
          ⟨[⟨"s1", "other", "T", 0, 0, 0⟩], []⟩) :=
  c8_delete_all_empty ⟨[⟨"s1", "other", "T", 0, 0, 0⟩], []⟩ "u" (by decide)

/-- C9: when a chat turn is submitted with no `session_id`, the context query
filters only by `user_id`, so the generation context is the caller's up-to-5
most recent message records across all of their sessions (here stated for a
chronologically ordered table): it is non-empty whenever the user has any
prior message in any session, and the handler's reply is produced by the
completion provider from exactly that cross-session context. -/
theorem c9_cross_session_context (db : DB) (uid msg : String)
    (provider : List ChatMsg → Option String) (sp : String) (sOk mOk : Bool)
    (nsid nmid : String) (now : Nat) (c : String)
    (h : ChronoAsc (db.messages.filter (contextFilter uid none)))
    (hp : provider (buildMessages sp (get_recent_context db uid none 5) msg) = some c)
    (hc : c ≠ "") :
    db.messages.filter (contextFilter uid none)
        = db.messages.filter (fun m => m.user_id == uid)
    ∧ get_recent_context db uid none 5
        = ((db.messages.filter (fun m => m.user_id == uid)).drop
            ((db.messages.filter (fun m => m.user_id == uid)).length - 5)).map
          (fun m => (m.user_message, m.ai_response))
    ∧ (db.messages.filter (fun m => m.user_id == uid) ≠ [] →
        get_recent_context db uid none 5 ≠ [])
    ∧ ∃ resp db2,
        send_chat_message db uid msg none provider sp sOk mOk nsid nmid now
          = ChatResult.ok resp db2 ∧ resp.message = pyStrip c := by
  have hfil : contextFilter uid none = (fun m => m.user_id == uid) := by
    funext m
    simp [contextFilter, optTruthy]
  have heq := get_recent_context_eq db uid none 5 h
  rw [hfil] at heq
  refine ⟨by rw [hfil], heq, ?_, ?_⟩
  · intro hne habs
    rw [heq] at habs
    have hlen := congrArg List.length habs
    rw [List.length_map, List.length_drop, List.length_nil] at hlen
    have hpos : 0 < (db.messages.filter (fun m => m.user_id == uid)).length :=
      List.length_pos.mpr hne
    omega
  · rw [send_eq_core db uid msg none provider sp sOk mOk nsid nmid now (fun _ h2 => nomatch h2),
      chatTurnCore_ok db uid msg none provider sp sOk mOk nsid nmid now c hp hc]
    exact ⟨_, _, rfl, rfl⟩

/-- C9 witness: a user with one prior message in another session starts a
fresh session; the context is that cross-session record and the turn
succeeds with the provider reply. -/
theorem c9_witness :
    (DB.mk [] [⟨"m1", "u", some "sOld", "a1", "b1", 1⟩]).messages.filter
        (contextFilter "u" none)
      = (DB.mk [] [⟨"m1", "u", some "sOld", "a1", "b1", 1⟩]).messages.filter
          (fun m => m.user_id == "u")
    ∧ get_recent_context ⟨[], [⟨"m1", "u", some "sOld", "a1", "b1", 1⟩]⟩ "u" none 5
      = (((DB.mk [] [⟨"m1", "u", some "sOld", "a1", "b1", 1⟩]).messages.filter
            (fun m => m.user_id == "u")).drop
          (((DB.mk [] [⟨"m1", "u", some "sOld", "a1", "b1", 1⟩]).messages.filter
            (fun m => m.user_id == "u")).length - 5)).map
        (fun m => (m.user_message, m.ai_response))
    ∧ ((DB.mk [] [⟨"m1", "u", some "sOld", "a1", "b1", 1⟩]).messages.filter
          (fun m => m.user_id == "u") ≠ [] →
        get_recent_context ⟨[], [⟨"m1", "u", some "sOld", "a1", "b1", 1⟩]⟩ "u" none 5 ≠ [])
    ∧ ∃ resp db2,
        send_chat_message ⟨[], [⟨"m1", "u", some "sOld", "a1", "b1", 1⟩]⟩ "u" "hi" none
            (fun _ => some "ok") "s" true true "n" "m" 2
          = ChatResult.ok resp db2 ∧ resp.message = pyStrip "ok" :=
  c9_cross_session_context ⟨[], [⟨"m1", "u", some "sOld", "a1", "b1", 1⟩]⟩ "u" "hi"
    (fun _ => some "ok") "s" true true "n" "m" 2 "ok" (by decide) rfl (by decide)

/-- C10: the authentication dependency computes the token as
`authorization.replace("Bearer ", "")`, which removes every (left-to-right,
non-overlapping) occurrence of the substring "Bearer " anywhere in the
header value, not just a single leading prefix: removing an occurrence
preceded by any prefix free of the character B behaves like removing a
leading occurrence, the scan leaves occurrence-free values untouched, and a
header value lacking the Bearer scheme entirely is not rejected but is
forwarded as-is to token validation, succeeding when the validator accepts
it. -/
theorem c10_bearer_replace_all (a b s : List Char) (hdr : String)
    (validate : String → Option UserInfo) (u : UserInfo)
    (ha : 'B' ∉ a)
    (hs : containsPat bearerPat s = false)
    (hh : containsPat bearerPat hdr.toList = false) (hne : hdr ≠ "")
    (hv : validate hdr = some u) :
    pyReplace bearerPat [] (a ++ bearerPat ++ b) = a ++ pyReplace bearerPat [] b
    ∧ pyReplace bearerPat [] s = s
    ∧ extract_token hdr = hdr
    ∧ get_current_user (some hdr) validate = Except.ok u := by
  refine ⟨?_, pyReplace_no_occurrence bearerPat [] s hs,
    extract_token_no_occurrence hdr hh, ?_⟩
  · have hbp : bearerPat = 'B' :: "earer ".toList := rfl
    rw [hbp]
    have := pyReplace_occurrence 'B' "earer ".toList [] a b ha
    simpa using this
  · unfold get_current_user
    have hne2 : (hdr == "") = false := beq_eq_false_iff_ne.mpr hne
    simp only [hne2, Bool.false_eq_true, if_false]
    rw [extract_token_no_occurrence hdr hh, hv]

/-- C10 witness: a non-leading occurrence is removed ("xBearer t" becomes
"xt"), an occurrence-free value is untouched, and the scheme-free header
"tok" is forwarded as-is and accepted by a validator that knows it. -/
theorem c10_witness :
    pyReplace bearerPat [] (['x'] ++ bearerPat ++ ['t']) = ['x'] ++ pyReplace bearerPat [] ['t']
    ∧ pyReplace bearerPat [] ['t', 'o', 'k'] = ['t', 'o', 'k']
    ∧ extract_token "tok" = "tok"
    ∧ get_current_user (some "tok")
        (fun t => if t == "tok" then some ⟨"uid", "e", "c"⟩ else none)
      = Except.ok ⟨"uid", "e", "c"⟩ :=
  c10_bearer_replace_all ['x'] ['t'] ['t', 'o', 'k'] "tok"
    (fun t => if t == "tok" then some ⟨"uid", "e", "c"⟩ else none) ⟨"uid", "e", "c"⟩
    (by decide) (by decide) (by decide) (by decide) (by decide)
